import Mathlib

/-!
Shallow embedding of the query-resolution and filtered-retrieval pipeline of
the NationalSecurityRAG server (src/app.py), together with proofs of the
behavioral claims about it.

Python dictionaries holding the parsed intent and the compiled filter are
modelled as structures with optional fields; a key that is absent from the
dictionary corresponds to the field being none.  Python truthiness tests
(if parsed.get("year"): ...) are modelled by explicit truthiness helpers:
an integer is truthy when nonzero, a string when nonempty.  The external
services (embedding model, vector store similarity search, generative
model) are modelled as function parameters, since the pipeline treats them
as opaque.
-/

set_option autoImplicit false

namespace NSSApp

/-- Chunk metadata as stored in the vector store (src/app.py keeps country,
year, doc_name and page on every chunk; year may be absent). -/
structure Meta where
  country : String
  year : Option Int
  doc_name : String
  page : Int
deriving DecidableEq, Repr

/-- ParsedIntent: the structured record produced by understand_query.
A field that the model omitted (or emitted as JSON null) is none. -/
structure ParsedIntent where
  country : Option String := none
  year : Option Int := none
  year_min : Option Int := none
  year_max : Option Int := none
  wants_latest : Bool := false
  search_query : Option String := none
deriving DecidableEq, Repr

/-- RetrievalFilter: the dictionary returned by build_filters.  A key that
build_filters never wrote is none. -/
structure Filters where
  country : Option String := none
  year_min : Option Int := none
  year_max : Option Int := none
deriving DecidableEq, Repr

/-- Python truthiness of parsed.get(key) for an integer-valued key:
a missing key and the value 0 are both falsy. -/
def getTruthyInt : Option Int → Option Int
  | none => none
  | some y => if y = 0 then none else some y

/-- Python truthiness of parsed.get(key) for a string-valued key:
a missing key and the empty string are both falsy. -/
def getTruthyStr : Option String → Option String
  | none => none
  | some s => if s = "" then none else some s

/-- Python max over a list of integers; none on the empty list (where the
source never calls it). -/
def pyMax : List Int → Option Int
  | [] => none
  | x :: xs => some (xs.foldl max x)

/-- get_latest_year_for_country (src/app.py lines 90-99): fetch all
metadata records whose country equals the argument exactly, keep the
truthy year values (so both missing years and year 0 are dropped), and
return their maximum, or none when nothing remains. -/
def get_latest_year_for_country (store : List Meta) (country : String) : Option Int :=
  let metadatas := store.filter (fun m => m.country = country)
  if metadatas.isEmpty then none
  else
    let years := metadatas.filterMap (fun m => getTruthyInt m.year)
    pyMax years

/-- build_filters (src/app.py lines 140-160).  Statement order of the
source is preserved: the country branch (with its nested latest-year
resolution) runs first, then the explicit-year branch, then the
year-range branch; later writes overwrite earlier ones. -/
def build_filters (store : List Meta) (parsed : ParsedIntent) : Filters :=
  let filters : Filters := {}
  let filters :=
    match getTruthyStr parsed.country with
    | some c =>
        let filters := { filters with country := some c }
        if parsed.wants_latest then
          match getTruthyInt (get_latest_year_for_country store c) with
          | some latest_year =>
              { filters with year_min := some latest_year, year_max := some latest_year }
          | none => filters
        else filters
    | none => filters
  match getTruthyInt parsed.year with
  | some y => { filters with year_min := some y, year_max := some y }
  | none =>
      if (getTruthyInt parsed.year_min).isSome || (getTruthyInt parsed.year_max).isSome then
        let filters :=
          match getTruthyInt parsed.year_min with
          | some ymin => { filters with year_min := some ymin }
          | none => filters
        match getTruthyInt parsed.year_max with
        | some ymax => { filters with year_max := some ymax }
        | none => filters
      else filters

/-- All recorded year values of the chunks of one country, in store order
(missing years dropped, zero years kept).  The maximum of this list is
what the spec calls the maximum year among that country's chunks. -/
def countryYears (store : List Meta) (country : String) : List Int :=
  (store.filter (fun m => m.country = country)).filterMap Meta.year

/-- JSON values, for the output of the intent-parsing model call. -/
inductive Json where
  | null : Json
  | bool : Bool → Json
  | num : Int → Json
  | str : String → Json
  | arr : List Json → Json
  | obj : List (String × Json) → Json

/-- understand_query (src/app.py lines 101-138), after the model call.
The argument is the outcome of json.loads on the model output: none when
loading raised JSONDecodeError, some j when it produced the value j.  On
a decode error the function returns the fallback dictionary whose only
key is search_query bound to the original question; otherwise it returns
the parsed value unchanged, whatever its shape. -/
def understand_query (parse_result : Option Json) (query : String) : Json :=
  match parse_result with
  | some parsed => parsed
  | none => Json.obj [("search_query", Json.str query)]

/-- Python dict.get(key, default): the value of the first binding of the
key, or the default when the key is absent. -/
def dict_get (fields : List (String × Json)) (key : String) (default : Json) : Json :=
  match fields with
  | [] => default
  | (k, v) :: rest => if k = key then v else dict_get rest key default

/-- Whether a Python dict holds the key at all. -/
def dict_has_key (fields : List (String × Json)) (key : String) : Bool :=
  match fields with
  | [] => false
  | (k, _) :: rest => if k = key then true else dict_has_key rest key

/-- Whether a JSON value is an object (a Python dict). -/
def is_dict : Json → Bool
  | Json.obj _ => true
  | _ => false

/-- The search string the pipeline actually embeds, from line 232 of
src/app.py: parsed.get("search_query", request.query).  When the parsed
value is not a dict, the attribute access .get raises AttributeError
(already at line 143 inside build_filters), a hard failure modelled as an
error value.  When the key is present, its value is used even if it is
JSON null; the default only covers an absent key. -/
def search_query_used (parsed : Json) (query : String) : Except String Json :=
  match parsed with
  | Json.obj fields => Except.ok (dict_get fields "search_query" (Json.str query))
  | _ => Except.error "AttributeError"

/-- Whether a JSON value is a populated search string: a nonempty string. -/
def is_populated (j : Json) : Bool :=
  match j with
  | Json.str s => !(s = "")
  | _ => false

/-- One predicate condition of the vector store's filter language
(src/app.py lines 167-173): country equality, lower year bound, upper
year bound. -/
inductive Condition where
  | countryEq : String → Condition
  | yearGte : Int → Condition
  | yearLte : Int → Condition
deriving DecidableEq, Repr

/-- The where argument handed to collection.query: a single condition or
an and-combination of a list of conditions. -/
inductive WhereFilter where
  | single : Condition → WhereFilter
  | conj : List Condition → WhereFilter
deriving DecidableEq, Repr

/-- The condition list built inside retrieve (src/app.py lines 166-173):
one condition per key present in the filters dict, appended in source
order country, year_min, year_max. -/
def conditionsOf (f : Filters) : List Condition :=
  (match f.country with | some c => [Condition.countryEq c] | none => []) ++
    (match f.year_min with | some y => [Condition.yearGte y] | none => []) ++
      (match f.year_max with | some y => [Condition.yearLte y] | none => [])

/-- The where filter built inside retrieve (src/app.py lines 165-178):
none when no condition was collected (this also covers the call site
passing None for an empty filters dict), the single condition alone when
exactly one was collected, and the and-combination otherwise. -/
def compileWhere (f : Filters) : Option WhereFilter :=
  match conditionsOf f with
  | [] => none
  | [c] => some (WhereFilter.single c)
  | cs => some (WhereFilter.conj cs)

/-- The number of set fields of a RetrievalFilter. -/
def numSetFields (f : Filters) : Nat :=
  (if f.country.isSome then 1 else 0) +
    (if f.year_min.isSome then 1 else 0) +
      (if f.year_max.isSome then 1 else 0)

/-- Result of one similarity search, modelling results of collection.query
projected to its first (and only) query: the document texts and the
metadata records, index-aligned. -/
structure RetrievalResults where
  documents : List String
  metadatas : List Meta
deriving DecidableEq, Repr

/-- TOP_K (src/app.py line 17). -/
def TOP_K : Nat := 10

/-- retrieve (src/app.py lines 162-186).  The embedding call and the
vector store query are opaque external services, modelled together as the
search argument taking the query text, the compiled where filter and the
result count. -/
def retrieve (search : String → Option WhereFilter → Nat → RetrievalResults)
    (query : String) (filters : Filters) (n_results : Nat) : RetrievalResults :=
  search query (compileWhere filters) n_results

/-- Python str(meta.get("year")) as interpolated into the source label:
a missing year prints as None. -/
def yearStr : Option Int → String
  | none => "None"
  | some y => toString y

/-- The label-plus-text block for one retrieved chunk, rank i is 0-based
here and printed 1-based as in the source f-string (src/app.py line 192). -/
def source_label (i : Nat) (m : Meta) (doc : String) : String :=
  "[Source " ++ toString (i + 1) ++ ": " ++ m.country ++ " " ++ yearStr m.year ++
    ", " ++ m.doc_name ++ " p." ++ toString m.page ++ "]\n" ++ doc

/-- The list of labeled blocks built by format_context (src/app.py lines
189-193): enumerate over the zip of documents and metadata records. -/
def context_parts_aux : Nat → List String → List Meta → List String
  | _, [], _ => []
  | _, _ :: _, [] => []
  | i, doc :: docs, m :: ms => source_label i m doc :: context_parts_aux (i + 1) docs ms

/-- context_parts from rank zero. -/
def context_parts (r : RetrievalResults) : List String :=
  context_parts_aux 0 r.documents r.metadatas

/-- format_context (src/app.py lines 188-194): the blocks joined by the
delimiter line. -/
def format_context (r : RetrievalResults) : String :=
  String.intercalate "\n\n---\n\n" (context_parts r)

/-- One entry of the sources list of the response (src/app.py lines
247-255). -/
structure Source where
  country : String
  year : Option Int
  doc_name : String
  page : Int
deriving DecidableEq, Repr

/-- The projection of one metadata record into a sources entry. -/
def mkSource (m : Meta) : Source :=
  { country := m.country, year := m.year, doc_name := m.doc_name, page := m.page }

/-- The sources list of the response: one projected entry per metadata
record of the retrieval result, in order. -/
def sources_of (metas : List Meta) : List Source :=
  metas.map mkSource

/-- The externally visible response record (src/app.py lines 35-39). -/
structure QueryResponse where
  answer : String
  sources : List Source
  parsed_query : ParsedIntent
  filters : Filters
deriving DecidableEq, Repr

/-- The fixed advisory answer of the empty-result short circuit
(src/app.py line 238). -/
def no_results_answer : String :=
  "No relevant documents found for your query. Try broadening your search or checking the country/year filters."

/-- Python whitespace characters stripped by str.strip (the ASCII ones;
the claims only concern these). -/
def isPythonSpace (c : Char) : Bool :=
  c = ' ' || c = '\t' || c = '\n' || c = '\r' || c = Char.ofNat 11 || c = Char.ofNat 12

/-- Python str.strip(): drop whitespace from both ends. -/
def pyStrip (s : String) : String :=
  String.mk (((s.toList.dropWhile isPythonSpace).reverse.dropWhile isPythonSpace).reverse)

/-- query_documents (src/app.py lines 225-262).  The three external
services are parameters: understand is the intent-parsing model call plus
JSON loading (already reduced to a typed ParsedIntent; its JSON-level
behavior is modelled separately by understand_query above), search is the
embedding call plus the vector store query, and generate is the
answer-synthesis model call on the question and the assembled context.
An HTTPException is modelled as an error value carrying status and
detail. -/
def query_documents (store : List Meta)
    (understand : String → ParsedIntent)
    (search : String → Option WhereFilter → Nat → RetrievalResults)
    (generate : String → String → String)
    (query : String) : Except (Nat × String) QueryResponse :=
  if pyStrip query = "" then Except.error (400, "Query cannot be empty")
  else
    let parsed := understand query
    let filters := build_filters store parsed
    let search_query := parsed.search_query.getD query
    let results := retrieve search search_query filters TOP_K
    if results.documents.isEmpty then
      Except.ok
        { answer := no_results_answer
          sources := []
          parsed_query := parsed
          filters := filters }
    else
      let context := format_context results
      let answer := generate query context
      Except.ok
        { answer := answer
          sources := sources_of results.metadatas
          parsed_query := parsed
          filters := filters }

/-- One metadata fetch issued against the store: either a single
unbounded collection.get, or one limit/offset page. -/
inductive FetchRequest where
  | unbounded : FetchRequest
  | paged : Nat → Nat → FetchRequest
deriving DecidableEq, Repr

/-- Whether a fetch request is one fixed-size page of the given batch
size. -/
def isPagedBatch (batch : Nat) : FetchRequest → Bool
  | FetchRequest.paged limit _ => limit = batch
  | FetchRequest.unbounded => false

/-- The stats payload of get_stats (src/app.py lines 281-286). -/
structure Stats where
  total_chunks : Nat
  countries : Nat
  country_list : List String
  year_range : Option (Int × Int)
deriving DecidableEq, Repr

/-- Python min over a list of integers; none on the empty list. -/
def pyMin : List Int → Option Int
  | [] => none
  | x :: xs => some (xs.foldl min x)

/-- The set of distinct countries seen by the aggregation loop of
get_stats, in first-occurrence order (the keys of its countries dict). -/
def statCountries (metas : List Meta) : List String :=
  (metas.map Meta.country).dedup

/-- The distinct truthy years seen by the aggregation loop of get_stats,
in first-occurrence order (its years set). -/
def statYears (metas : List Meta) : List Int :=
  (metas.filterMap (fun m => getTruthyInt m.year)).dedup

/-- get_stats (src/app.py lines 264-286), together with the trace of
metadata fetches it issues against the store.  Line 266 is a single
collection.get with no limit and no offset, so the trace is one unbounded
fetch; the aggregation then walks every returned record once. -/
def get_stats (store : List Meta) : Stats × List FetchRequest :=
  let all_meta := store
  ({ total_chunks := store.length
     countries := (statCountries all_meta).length
     country_list := (statCountries all_meta).mergeSort (fun a b => a ≤ b)
     year_range :=
       match pyMin (statYears all_meta), pyMax (statYears all_meta) with
       | some lo, some hi => some (lo, hi)
       | _, _ => none },
   [FetchRequest.unbounded])

/-! ### Helper lemmas about the Python max of a list -/

theorem foldl_max_le {m : Int} :
    ∀ (xs : List Int) (x : Int), x ≤ m → (∀ y ∈ xs, y ≤ m) → xs.foldl max x ≤ m
  | [], _, hx, _ => hx
  | a :: xs, x, hx, h =>
      foldl_max_le xs (max x a) (max_le hx (h a (List.mem_cons_self a xs)))
        (fun y hy => h y (List.mem_cons_of_mem a hy))

theorem le_foldl_max_init : ∀ (xs : List Int) (x : Int), x ≤ xs.foldl max x
  | [], _ => le_refl _
  | a :: xs, x => le_trans (le_max_left x a) (le_foldl_max_init xs (max x a))

theorem mem_le_foldl_max : ∀ (xs : List Int) (x y : Int), y ∈ xs → y ≤ xs.foldl max x
  | a :: xs, x, y, hy => by
      rcases List.mem_cons.mp hy with h | h
      · subst h
        exact le_trans (le_max_right x y) (le_foldl_max_init xs (max x y))
      · exact mem_le_foldl_max xs (max x a) y h

theorem foldl_max_mem : ∀ (xs : List Int) (x : Int), xs.foldl max x = x ∨ xs.foldl max x ∈ xs
  | [], _ => Or.inl rfl
  | a :: xs, x => by
      rcases foldl_max_mem xs (max x a) with h | h
      · rcases max_choice x a with hx | hx
        · left
          show List.foldl max (max x a) xs = x
          rw [h, hx]
        · right
          show List.foldl max (max x a) xs ∈ a :: xs
          rw [h, hx]
          exact List.mem_cons_self a xs
      · exact Or.inr (List.mem_cons_of_mem a h)

/-- Characterization used to compute pyMax: the maximum is the member that
bounds every member. -/
theorem pyMax_eq_some {l : List Int} {m : Int} (hm : m ∈ l) (hub : ∀ y ∈ l, y ≤ m) :
    pyMax l = some m := by
  cases l with
  | nil => cases hm
  | cons x xs =>
      have h1 : xs.foldl max x ≤ m :=
        foldl_max_le xs x (hub x (List.mem_cons_self x xs))
          (fun y hy => hub y (List.mem_cons_of_mem x hy))
      have h2 : m ≤ xs.foldl max x := by
        rcases List.mem_cons.mp hm with h | h
        · subst h; exact le_foldl_max_init xs m
        · exact mem_le_foldl_max xs x m h
      simp [pyMax, le_antisymm h1 h2]

/-- A nonempty list has a pyMax that is a member and an upper bound. -/
theorem pyMax_spec {l : List Int} (h : l ≠ []) :
    ∃ m, pyMax l = some m ∧ m ∈ l ∧ ∀ y ∈ l, y ≤ m := by
  cases l with
  | nil => cases h rfl
  | cons x xs =>
      refine ⟨xs.foldl max x, rfl, ?_, ?_⟩
      · rcases foldl_max_mem xs x with hx | hx
        · rw [hx]; exact List.mem_cons_self x xs
        · exact List.mem_cons_of_mem x hx
      · intro y hy
        rcases List.mem_cons.mp hy with h | h
        · subst h; exact le_foldl_max_init xs y
        · exact mem_le_foldl_max xs x y h

/-- Dropping the zero entries does not change the maximum of a list that
holds a positive entry. -/
theorem pyMax_filter_nonzero {l : List Int} (h : ∃ y ∈ l, 1 ≤ y) :
    pyMax (l.filter (fun y => !(y = 0))) = pyMax l := by
  obtain ⟨y0, hy0, hy0pos⟩ := h
  have hne : l ≠ [] := by
    intro hnil
    rw [hnil] at hy0
    cases hy0
  obtain ⟨m, hmax, hmem, hub⟩ := pyMax_spec hne
  have hm1 : (1 : Int) ≤ m := le_trans hy0pos (hub y0 hy0)
  have hmne : ¬ m = 0 := by omega
  rw [hmax]
  refine pyMax_eq_some ?_ ?_
  · simp [List.mem_filter, hmem, hmne]
  · intro y hy
    exact hub y (List.mem_filter.mp hy).1

/-- The truthy-year list of get_latest_year_for_country is the recorded
year list with the zero entries dropped. -/
theorem filterMap_getTruthy_eq (metas : List Meta) :
    metas.filterMap (fun m => getTruthyInt m.year) =
      (metas.filterMap Meta.year).filter (fun y => !(y = 0)) := by
  induction metas with
  | nil => rfl
  | cons m ms ih =>
      cases hy : m.year with
      | none =>
          have hval : getTruthyInt m.year = none := by rw [hy]; rfl
          simp only [List.filterMap_cons, hval, hy]
          exact ih
      | some y =>
          by_cases h0 : y = 0
          · subst h0
            have hval : getTruthyInt m.year = none := by rw [hy]; rfl
            simp only [List.filterMap_cons, hval, hy]
            simpa using ih
          · have hval : getTruthyInt (some y) = some y := by
              simp [getTruthyInt, h0]
            simp only [List.filterMap_cons, hy, hval]
            rw [ih]
            simp [List.filter_cons, h0]

/-- A list of all-whitespace characters is fully dropped. -/
theorem dropWhile_eq_nil_of_all {α : Type} (p : α → Bool) :
    ∀ (l : List α), l.all p = true → l.dropWhile p = []
  | [], _ => rfl
  | a :: l, h => by
      rw [List.all_cons, Bool.and_eq_true] at h
      simp [List.dropWhile, h.1, dropWhile_eq_nil_of_all p l h.2]

/-- Stripping an all-whitespace string yields the empty string. -/
theorem pyStrip_eq_empty {s : String} (h : s.data.all isPythonSpace = true) :
    pyStrip s = "" := by
  unfold pyStrip
  rw [show s.toList = s.data from rfl, dropWhile_eq_nil_of_all _ _ h]
  rfl

/-- When some chunk of the country has a positive year, the latest-year
lookup returns exactly the maximum recorded year of that country. -/
theorem get_latest_of_pos (store : List Meta) (c : String)
    (hex : ∃ y ∈ countryYears store c, 1 ≤ y) :
    get_latest_year_for_country store c = pyMax (countryYears store c) := by
  have hne : countryYears store c ≠ [] := by
    obtain ⟨y0, hy0, _⟩ := hex
    intro hnil
    rw [hnil] at hy0
    cases hy0
  have hmetas : (store.filter (fun m => m.country = c)).isEmpty = false := by
    rw [List.isEmpty_eq_false]
    intro hnil
    exact hne (by unfold countryYears; rw [hnil]; rfl)
  unfold get_latest_year_for_country
  simp only [hmetas, Bool.false_eq_true, if_false]
  rw [filterMap_getTruthy_eq]
  exact pyMax_filter_nonzero hex

/-- The j-th labeled block of the context holds the label of rank p + j
and the j-th document and metadata record. -/
theorem context_parts_aux_get :
    ∀ (docs : List String) (p j : Nat) (metas : List Meta)
      (hd : j < docs.length) (hm : j < metas.length),
      (context_parts_aux p docs metas)[j]? =
        some (source_label (p + j) (metas.get ⟨j, hm⟩) (docs.get ⟨j, hd⟩))
  | [], _, j, _, hd, _ => absurd hd (by simp)
  | _ :: _, _, j, [], _, hm => absurd hm (by simp)
  | doc :: docs, p, 0, m :: ms, _, _ => by
      simp [context_parts_aux]
  | doc :: docs, p, j + 1, m :: ms, hd, hm => by
      have ih := context_parts_aux_get docs (p + 1) j ms (by simpa using hd) (by simpa using hm)
      have harg : p + 1 + j = p + (j + 1) := by omega
      simp only [context_parts_aux, List.getElem?_cons_succ]
      rw [ih, harg]
      rfl

/-! ### Claim theorems -/

/-- Claim C10 (confirmed): filter compilation treats a year value of 0 as
absent.  Replacing the value 0 by a missing value in any of the three
year fields of the intent leaves build_filters unchanged, and a country
all of whose chunks have a missing or zero year resolves to no latest
year. -/
theorem year_zero_treated_as_absent (store : List Meta) (p : ParsedIntent) (c : String) :
    build_filters store { p with year := some 0 } = build_filters store { p with year := none }
  ∧ build_filters store { p with year_min := some 0 } =
      build_filters store { p with year_min := none }
  ∧ build_filters store { p with year_max := some 0 } =
      build_filters store { p with year_max := none }
  ∧ ((∀ m ∈ store, m.country = c → m.year = none ∨ m.year = some 0) →
      get_latest_year_for_country store c = none) := by
  refine ⟨rfl, rfl, rfl, ?_⟩
  intro h
  unfold get_latest_year_for_country
  have hyears :
      (store.filter (fun m => m.country = c)).filterMap (fun m => getTruthyInt m.year) = [] := by
    rw [List.filterMap_eq_nil_iff]
    intro m hm
    have hmc := List.mem_filter.mp hm
    rcases h m hmc.1 (by simpa using hmc.2) with h1 | h1 <;> rw [h1] <;> rfl
  by_cases hemp : (store.filter (fun m => m.country = c)).isEmpty
  · simp [hemp]
  · simp [hemp, hyears, pyMax]

/-- Witness for the C10 theorem: a store whose only chunk of the country
has year 0 resolves to no latest year. -/
theorem year_zero_treated_as_absent_witness :
    get_latest_year_for_country
      [{ country := "X", year := some 0, doc_name := "d", page := 1 }] "X" = none :=
  (year_zero_treated_as_absent
      [{ country := "X", year := some 0, doc_name := "d", page := 1 }] {} "X").2.2.2
    (by decide)

/-- Claim C2 as stated is false at year 0: build_filters of an intent
whose year field is set to 0 carries no year constraint at all, although
the claim demands year_min equal to year_max equal to 0. -/
theorem explicit_year_zero_ignored :
    ({ year := some 0 : ParsedIntent }).year = some 0
  ∧ build_filters [] { year := some 0 } =
      { country := none, year_min := none, year_max := none } :=
  ⟨rfl, rfl⟩

/-- Claim C2 (amended: the explicit year must be nonzero): an explicit
nonzero year always wins: the compiled filter pins year_min and year_max
to it, regardless of wants_latest and of any latest-year resolution. -/
theorem explicit_year_overrides (store : List Meta) (p : ParsedIntent) (y : Int)
    (hy : p.year = some y) (hynz : ¬ y = 0) :
    (build_filters store p).year_min = some y ∧ (build_filters store p).year_max = some y := by
  have hgty : getTruthyInt p.year = some y := by rw [hy]; simp [getTruthyInt, hynz]
  constructor <;> (unfold build_filters; simp only [hgty])

/-- Witness for the amended C2 theorem: the store's latest Japan year is
2020, the intent asks for latest and for 2015 explicitly, and 2015 wins. -/
theorem explicit_year_overrides_witness :
    (build_filters [{ country := "Japan", year := some 2020, doc_name := "d", page := 1 }]
        { country := some "Japan", wants_latest := true, year := some 2015 }).year_min = some 2015
  ∧ (build_filters [{ country := "Japan", year := some 2020, doc_name := "d", page := 1 }]
        { country := some "Japan", wants_latest := true, year := some 2015 }).year_max =
      some 2015 :=
  explicit_year_overrides _ _ 2015 rfl (by decide)

/-- Claim C4 (confirmed): the predicate compiled by retrieve has exactly
one condition per set filter field; no set field yields no predicate, a
single condition is used bare, and two or more conditions become an
and-combination of exactly that many conditions. -/
theorem compile_where_arity (f : Filters) :
    (conditionsOf f).length = numSetFields f
  ∧ (numSetFields f = 0 → compileWhere f = none)
  ∧ (∀ c : Condition, conditionsOf f = [c] → compileWhere f = some (WhereFilter.single c))
  ∧ (2 ≤ numSetFields f → compileWhere f = some (WhereFilter.conj (conditionsOf f))) := by
  obtain ⟨co, ymin, ymax⟩ := f
  cases co <;> cases ymin <;> cases ymax <;>
    simp [conditionsOf, numSetFields, compileWhere]

/-- Witness for the C4 theorem: a three-field filter compiles to a
three-condition and-combination. -/
theorem compile_where_arity_witness :
    compileWhere { country := some "Japan", year_min := some 2010, year_max := some 2020 } =
      some (WhereFilter.conj
        [Condition.countryEq "Japan", Condition.yearGte 2010, Condition.yearLte 2020]) :=
  (compile_where_arity
      { country := some "Japan", year_min := some 2010, year_max := some 2020 }).2.2.2
    (by decide)

/-- Claim C9 as stated is false of the code: at a concrete store,
get_stats issues exactly one unbounded metadata fetch and none of its
fetches is a 5000-record page. -/
theorem get_stats_single_fetch_counterexample :
    (get_stats [{ country := "Japan", year := some 2015, doc_name := "d", page := 1 }]).2 =
      [FetchRequest.unbounded]
  ∧ ((get_stats [{ country := "Japan", year := some 2015, doc_name := "d", page := 1 }]).2.all
      (isPagedBatch 5000)) = false :=
  ⟨rfl, rfl⟩

/-- Claim C9 (amended): the Stats Aggregator reads the metadata store in
one single unbounded fetch, not in fixed-size limit/offset batches. -/
theorem get_stats_single_fetch (store : List Meta) :
    (get_stats store).2 = [FetchRequest.unbounded]
  ∧ (get_stats store).1.total_chunks = store.length :=
  ⟨rfl, rfl⟩

/-- Claim C1 as stated is false at year 0: the only chunk of the country
has year 0 (so a chunk with year greater or equal 0 exists and the
maximum year among the country's chunks is 0), yet the compiled filter
carries no year constraint at all. -/
theorem latest_year_zero_counterexample :
    countryYears [{ country := "United States", year := some 0, doc_name := "NSS", page := 1 }]
      "United States" = [0]
  ∧ pyMax (countryYears
      [{ country := "United States", year := some 0, doc_name := "NSS", page := 1 }]
      "United States") = some 0
  ∧ build_filters [{ country := "United States", year := some 0, doc_name := "NSS", page := 1 }]
      { country := some "United States", wants_latest := true } =
      { country := some "United States", year_min := none, year_max := none } := by
  decide

/-- Claim C1 (amended: some chunk of the country must have a year of at
least 1, and the intent must carry no explicit year or range; a country
whose recorded years are all 0 or missing resolves to no constraint, see
the C10 theorem): when country and wants_latest are set and some chunk of
the country has a positive year, the compiled filter pins year_min and
year_max to the maximum recorded year of that country. -/
theorem latest_year_filter (store : List Meta) (p : ParsedIntent) (c : String)
    (hc : p.country = some c) (hcne : ¬ c = "")
    (hwl : p.wants_latest = true)
    (hy : getTruthyInt p.year = none)
    (hymin : getTruthyInt p.year_min = none)
    (hymax : getTruthyInt p.year_max = none)
    (hex : ∃ y ∈ countryYears store c, 1 ≤ y) :
    (build_filters store p).year_min = pyMax (countryYears store c)
  ∧ (build_filters store p).year_max = pyMax (countryYears store c) := by
  have hne : countryYears store c ≠ [] := by
    obtain ⟨y0, hy0, _⟩ := hex
    intro hnil
    rw [hnil] at hy0
    cases hy0
  obtain ⟨m, hmax, hmem, hub⟩ := pyMax_spec hne
  obtain ⟨y0, hy0, hy0pos⟩ := hex
  have hm1 : (1 : Int) ≤ m := le_trans hy0pos (hub y0 hy0)
  have hlatest : get_latest_year_for_country store c = some m := by
    rw [get_latest_of_pos store c ⟨y0, hy0, hy0pos⟩, hmax]
  have hgc : getTruthyStr p.country = some c := by rw [hc]; simp [getTruthyStr, hcne]
  have hgl : getTruthyInt (get_latest_year_for_country store c) = some m := by
    rw [hlatest]
    show (if m = 0 then none else some m) = some m
    rw [if_neg (by omega)]
  rw [hmax]
  constructor <;>
    (unfold build_filters; simp only [hgc, hwl, if_true, hgl, hy, hymin, hymax]; simp)

/-- Witness for the amended C1 theorem: two United States chunks with
years 2017 and 2022; the filter pins both bounds to their maximum. -/
theorem latest_year_filter_witness :
    (build_filters
        [{ country := "United States", year := some 2017, doc_name := "NSS 2017", page := 1 },
         { country := "United States", year := some 2022, doc_name := "NSS 2022", page := 5 }]
        { country := some "United States", wants_latest := true }).year_min =
      pyMax (countryYears
        [{ country := "United States", year := some 2017, doc_name := "NSS 2017", page := 1 },
         { country := "United States", year := some 2022, doc_name := "NSS 2022", page := 5 }]
        "United States")
  ∧ (build_filters
        [{ country := "United States", year := some 2017, doc_name := "NSS 2017", page := 1 },
         { country := "United States", year := some 2022, doc_name := "NSS 2022", page := 5 }]
        { country := some "United States", wants_latest := true }).year_max =
      pyMax (countryYears
        [{ country := "United States", year := some 2017, doc_name := "NSS 2017", page := 1 },
         { country := "United States", year := some 2022, doc_name := "NSS 2022", page := 5 }]
        "United States") :=
  latest_year_filter _ _ "United States" rfl (by decide) rfl rfl rfl rfl (by decide)

/-- Claim C6 as stated is false when the intent also carries an explicit
year: the latest-year lookup resolves nothing, yet the filter does carry
a year constraint, coming from the explicit-year branch. -/
theorem latest_unresolvable_counterexample :
    get_latest_year_for_country [] "Narnia" = none
  ∧ build_filters [] { country := some "Narnia", wants_latest := true, year := some 2020 } =
      { country := some "Narnia", year_min := some 2020, year_max := some 2020 } := by
  decide

/-- Claim C6 (amended: the intent must carry no explicit year or range of
its own): when country and wants_latest are set and the latest-year
lookup resolves nothing, build_filters returns the filter that carries
exactly the country and no year constraint; no error is raised, since
build_filters is a total function. -/
theorem latest_unresolvable_graceful (store : List Meta) (p : ParsedIntent) (c : String)
    (hc : p.country = some c) (hcne : ¬ c = "")
    (hwl : p.wants_latest = true)
    (hlat : get_latest_year_for_country store c = none)
    (hy : getTruthyInt p.year = none)
    (hymin : getTruthyInt p.year_min = none)
    (hymax : getTruthyInt p.year_max = none) :
    build_filters store p = { country := some c, year_min := none, year_max := none } := by
  have hgc : getTruthyStr p.country = some c := by rw [hc]; simp [getTruthyStr, hcne]
  have hgl : getTruthyInt (get_latest_year_for_country store c) = none := by rw [hlat]; rfl
  unfold build_filters
  simp only [hgc, hwl, if_true, hgl, hy, hymin, hymax]
  simp

/-- Witness for the amended C6 theorem: scenario of an unknown country
with a latest request yields the country-only filter. -/
theorem latest_unresolvable_graceful_witness :
    build_filters [] { country := some "Narnia", wants_latest := true } =
      { country := some "Narnia", year_min := none, year_max := none } :=
  latest_unresolvable_graceful [] _ "Narnia" rfl (by decide) rfl rfl rfl rfl rfl

/-- Claim C5 (confirmed): when retrieval returns zero chunks the pipeline
short-circuits: the response is the success payload with the fixed
advisory answer, empty sources, and the parsed intent and compiled filter
unchanged; it is the same for every generate service, so the Answer
Synthesizer is never invoked. -/
theorem empty_retrieval_short_circuit (store : List Meta)
    (understand : String → ParsedIntent)
    (search : String → Option WhereFilter → Nat → RetrievalResults)
    (generate : String → String → String)
    (query : String)
    (hq : ¬ pyStrip query = "")
    (hempty : (retrieve search ((understand query).search_query.getD query)
        (build_filters store (understand query)) TOP_K).documents = []) :
    query_documents store understand search generate query =
      Except.ok
        { answer := no_results_answer
          sources := []
          parsed_query := understand query
          filters := build_filters store (understand query) } := by
  unfold query_documents
  rw [if_neg hq]
  simp [hempty]

/-- Witness for the C5 theorem: a search service returning no documents
yields the advisory response, for an arbitrary generate service. -/
theorem empty_retrieval_short_circuit_witness :
    query_documents [] (fun _ => {}) (fun _ _ _ => { documents := [], metadatas := [] })
      (fun _ _ => "answer") "hello" =
      Except.ok
        { answer := no_results_answer
          sources := []
          parsed_query := {}
          filters := {} } :=
  empty_retrieval_short_circuit [] _ _ _ "hello" (by decide) rfl

/-- Claim C8 (confirmed): an empty or whitespace-only query is rejected
with a 400 client error, and the result is the same for every understand,
search and generate service, so no pipeline step runs. -/
theorem blank_query_rejected (store : List Meta)
    (understand : String → ParsedIntent)
    (search : String → Option WhereFilter → Nat → RetrievalResults)
    (generate : String → String → String)
    (query : String)
    (hq : query.data.all isPythonSpace = true) :
    query_documents store understand search generate query =
      Except.error (400, "Query cannot be empty") := by
  unfold query_documents
  rw [if_pos (pyStrip_eq_empty hq)]

/-- Witness for the C8 theorem at a whitespace-only query. -/
theorem blank_query_rejected_witness :
    query_documents [] (fun _ => {}) (fun _ _ _ => { documents := [], metadatas := [] })
      (fun _ _ => "answer") "   " = Except.error (400, "Query cannot be empty") :=
  blank_query_rejected [] _ _ _ "   " (by decide)

/-- Claim C7 (confirmed): the assembled context is the labeled blocks
joined by the delimiter line; the block at index i (0-based, printed with
1-based rank i+1) is built from the document text and metadata record at
index i of the retrieval result, and the entry at index i of the sources
list is the projection of that same metadata record, so blocks and
sources stay index-aligned in retrieval order. -/
theorem context_sources_aligned (docs : List String) (metas : List Meta) (i : Nat)
    (hd : i < docs.length) (hm : i < metas.length) :
    format_context { documents := docs, metadatas := metas } =
      String.intercalate "\n\n---\n\n"
        (context_parts { documents := docs, metadatas := metas })
  ∧ (context_parts { documents := docs, metadatas := metas })[i]? =
      some (source_label i (metas.get ⟨i, hm⟩) (docs.get ⟨i, hd⟩))
  ∧ (sources_of metas)[i]? = some (mkSource (metas.get ⟨i, hm⟩)) := by
  refine ⟨rfl, ?_, ?_⟩
  · have h := context_parts_aux_get docs 0 i metas hd hm
    simpa [context_parts] using h
  · rw [sources_of, List.getElem?_map, List.getElem?_eq_getElem hm]
    rfl

/-- Witness for the C7 theorem with two retrieved chunks, at index 1. -/
theorem context_sources_aligned_witness :
    (context_parts
        { documents := ["alpha", "beta"]
          metadatas := [{ country := "Japan", year := some 2015, doc_name := "doc1", page := 3 },
                        { country := "France", year := none, doc_name := "doc2", page := 7 }] })[1]? =
      some (source_label 1
        { country := "France", year := none, doc_name := "doc2", page := 7 } "beta")
  ∧ (sources_of [{ country := "Japan", year := some 2015, doc_name := "doc1", page := 3 },
                 { country := "France", year := none, doc_name := "doc2", page := 7 }])[1]? =
      some (mkSource { country := "France", year := none, doc_name := "doc2", page := 7 }) :=
  ⟨(context_sources_aligned ["alpha", "beta"] _ 1 (by decide) (by decide)).2.1,
   (context_sources_aligned ["alpha", "beta"] _ 1 (by decide) (by decide)).2.2⟩

/-- The default of dict.get is returned when the key is absent. -/
theorem dict_get_of_no_key :
    ∀ (fields : List (String × Json)) (key : String) (d : Json),
      dict_has_key fields key = false → dict_get fields key d = d
  | [], _, _, _ => rfl
  | (k, v) :: rest, key, d, h => by
      by_cases hk : k = key
      · rw [dict_has_key] at h
        simp [hk] at h
      · rw [dict_get, if_neg hk]
        rw [dict_has_key, if_neg hk] at h
        exact dict_get_of_no_key rest key d h

/-- Claim C3 as stated is false: a model output parsing to the JSON
object that binds search_query to null is returned unchanged by
understand_query, and the search query used downstream is then null, not
the raw question, so it is not populated. -/
theorem parse_fallback_counterexample :
    understand_query (some (Json.obj [("search_query", Json.null)])) "what is x" =
      Json.obj [("search_query", Json.null)]
  ∧ search_query_used (Json.obj [("search_query", Json.null)]) "what is x" =
      Except.ok Json.null
  ∧ is_populated Json.null = false :=
  ⟨rfl, rfl, rfl⟩

/-- Claim C3 (amended: the fallback to the raw question happens exactly
on a JSON parse failure or when the parsed object lacks the search_query
key; an object binding the key to null passes null through unrecovered,
and a parse result that is not an object hard-fails with an
AttributeError): on a parse failure the parser degrades to the dictionary
binding search_query to the original question, and the search query used
downstream then equals the raw question; likewise when the parsed object
has no search_query key. -/
theorem parse_fallback (query : String) :
    understand_query none query = Json.obj [("search_query", Json.str query)]
  ∧ search_query_used (understand_query none query) query = Except.ok (Json.str query)
  ∧ (∀ fields : List (String × Json), dict_has_key fields "search_query" = false →
      search_query_used (Json.obj fields) query = Except.ok (Json.str query))
  ∧ (∀ j : Json, is_dict j = false →
      search_query_used j query = Except.error "AttributeError") := by
  refine ⟨rfl, rfl, ?_, ?_⟩
  · intro fields h
    show Except.ok (dict_get fields "search_query" (Json.str query)) =
      Except.ok (Json.str query)
    rw [dict_get_of_no_key fields "search_query" _ h]
  · intro j hj
    cases j <;> simp [search_query_used, is_dict] at hj ⊢

/-- Witness for the amended C3 theorem: a parse failure falls back to the
question, a parsed object without the key falls back to the question, a
parsed array hard-fails. -/
theorem parse_fallback_witness :
    understand_query none "q" = Json.obj [("search_query", Json.str "q")]
  ∧ search_query_used (Json.obj [("country", Json.str "Japan")]) "q" = Except.ok (Json.str "q")
  ∧ search_query_used (Json.arr []) "q" = Except.error "AttributeError" :=
  ⟨(parse_fallback "q").1,
   (parse_fallback "q").2.2.1 [("country", Json.str "Japan")] rfl,
   (parse_fallback "q").2.2.2 (Json.arr []) rfl⟩

end NSSApp
